import Mathlib

/-!
# Verification of the Smart-Todo task lifecycle engine

Shallow embedding of the server in `src/api/db.js` (SQLite schema plus the
Express handlers): the task store, the dependency check performed by
`PUT /api/tasks/:id`, the recurrence generation inside `doTaskUpdate`, the
time-entry stop computation, the reminder cron scan, and the `/api/sync`
batch reconciler.

Conventions of the embedding:
* SQLite `INTEGER` timestamps (milliseconds since the Unix epoch) are `Int`;
  nullable columns are `Option _`.  A due date that the code stores as an ISO
  string (`nextDue.toISOString()`) is modelled by the instant (in ms) that the
  string denotes — `toISOString` and `new Date(iso)` round-trip exactly.
* JavaScript truthiness tests on nullable columns are modelled explicitly:
  `none` and `some 0` (resp. `some ""`) are falsy.
* `Date` field arithmetic (`setDate`/`setMonth`) is modelled with the process
  timezone set to UTC, the standard server configuration: adding `k` to the
  day-of-month denotes the instant `k * 86400000` ms later, and `setMonth`
  performs civil-calendar month arithmetic with day-of-month overflow rolling
  into the following month (the ECMAScript `MakeDay` normalization).
* `sendMail` outcomes and infrastructure-level `db.run` failures are
  nondeterministic in the source; they are supplied as oracle functions.
-/

namespace SmartTodo

/-- A row of the `tasks` table (`db.js` CREATE TABLE tasks).  All columns but
the primary key are nullable; `completed INTEGER DEFAULT 0` is modelled as a
`Bool` (the code only ever stores `0` or `1` via `completed?1:0`). -/
structure Task where
  id : String
  title : Option String
  description : Option String
  priority : Option String
  completed : Bool
  due_at : Option Int
  created_by : Option String
  assignee : Option String
  recurring_rule : Option String
  created_at : Int
deriving Repr, DecidableEq

/-- A row of the `reminders` table. -/
structure Reminder where
  id : String
  task_id : Option String
  user_id : Option String
  remind_at : Option Int
  snoozed_until : Option Int
  sent : Bool
deriving Repr, DecidableEq

/-- A row of the `time_entries` table. -/
structure TimeEntry where
  id : String
  task_id : Option String
  user_id : Option String
  started_at : Int
  stopped_at : Option Int
  duration : Option Int
deriving Repr, DecidableEq

/-- The persistent state touched by the verified handlers: the `tasks`,
`task_dependencies`, `reminders` and `time_entries` tables.  A dependency edge
is the pair (task_id, depends_on_id). -/
structure Store where
  tasks : List Task
  task_dependencies : List (String × String)
  reminders : List Reminder
  time_entries : List TimeEntry
deriving Repr, DecidableEq

/-- The tables created by `db.js` (`CREATE TABLE IF NOT EXISTS ...`).  Note
that the dependency table is named `task_dependencies`; no table named
`dependencies` is ever created. -/
def schemaTables : List String :=
  ["users", "teams", "team_members", "tasks", "task_dependencies",
   "comments", "time_entries", "reminders"]

/-- The join the completion check intends:
`SELECT d.depends_on_id FROM <deps> d JOIN tasks t ON d.depends_on_id = t.id
 WHERE d.task_id = ? AND t.completed = 0`, evaluated against the
`task_dependencies` data (task ids are a primary key, so at most one task row
matches each edge). -/
def incompleteDepsJoin (tasks : List Task) (deps : List (String × String))
    (id : String) : List String :=
  (deps.filter (fun e => e.1 == id)).filterMap (fun e =>
    match tasks.find? (fun t => t.id == e.2 && !t.completed) with
    | some _ => some e.2
    | none => none)

/-- `db.all` of `SELECT d.depends_on_id FROM dependencies d JOIN tasks t ...`
from the PUT handler.  The statement names the table `dependencies`, but the
schema (`schemaTables`) only creates `task_dependencies`, so SQLite reports an
error instead of running the join. -/
def selectIncompleteDependencies (st : Store) (id : String) :
    Except String (List String) :=
  if schemaTables.contains "dependencies" then
    Except.ok (incompleteDepsJoin st.tasks st.task_dependencies id)
  else
    Except.error "SQLITE_ERROR: no such table: dependencies"

/-- The request body of `PUT /api/tasks/:id`:
`const { title, description, priority, completed, due_at, assignee,
recurring_rule } = req.body`.  An omitted field is `undefined`, which
node-sqlite3 binds as NULL — hence `Option` (with `none` for omitted), and
`completed : Bool` for the truthiness of `completed` (`completed?1:0`). -/
structure UpdateReq where
  title : Option String
  description : Option String
  priority : Option String
  completed : Bool
  due_at : Option Int
  assignee : Option String
  recurring_rule : Option String
deriving Repr, DecidableEq

/-- Effect of `UPDATE tasks SET title=?,...,recurring_rule=? WHERE id=?` on
one row: every one of the seven bound columns is overwritten by the request
value; `id`, `created_by`, `created_at` are not in the SET list. -/
def overwriteRow (t : Task) (r : UpdateReq) : Task :=
  { t with
    title := r.title
    description := r.description
    priority := r.priority
    completed := r.completed
    due_at := r.due_at
    assignee := r.assignee
    recurring_rule := r.recurring_rule }

/-- The full-table effect of that UPDATE statement. -/
def sqlUpdateTasks (tasks : List Task) (id : String) (r : UpdateReq) :
    List Task :=
  tasks.map (fun t => if t.id == id then overwriteRow t r else t)

/-! ### JavaScript `Date` arithmetic (UTC) -/

/-- Milliseconds in a civil day. -/
def msPerDay : Int := 86400000

/-- Day count since 1970-01-01 to the civil date (y, m, d), m ∈ 1..12; a
day-of-month beyond the length of the target month spills into the following
months, exactly as ECMAScript `MakeDay` does. -/
def daysFromCivil (y0 m d : Int) : Int :=
  let y := if m ≤ 2 then y0 - 1 else y0
  let era := y.fdiv 400
  let yoe := y - era * 400
  let doy := (153 * (m + (if m > 2 then -3 else 9)) + 2).fdiv 5 + d - 1
  let doe := yoe * 365 + yoe.fdiv 4 - yoe.fdiv 100 + doy
  era * 146097 + doe - 719468

/-- Civil date (y, m, d) of a day count since 1970-01-01. -/
def civilFromDays (z0 : Int) : Int × Int × Int :=
  let z := z0 + 719468
  let era := z.fdiv 146097
  let doe := z - era * 146097
  let yoe := (doe - doe.fdiv 1460 + doe.fdiv 36524 - doe.fdiv 146096).fdiv 365
  let y := yoe + era * 400
  let doy := doe - (365 * yoe + yoe.fdiv 4 - yoe.fdiv 100)
  let mp := (5 * doy + 2).fdiv 153
  let d := doy - (153 * mp + 2).fdiv 5 + 1
  let m := mp + (if mp < 10 then 3 else -9)
  (if m ≤ 2 then y + 1 else y, m, d)

/-- `nextDue.setMonth(nextDue.getMonth() + 1)` on an instant (ms, UTC):
increment the civil month (December wraps to January of the next year) and
rebuild the instant from (year, month, same day-of-month, same time of day),
with day overflow spilling into the following month. -/
def addMonthJS (ms : Int) : Int :=
  let z := ms.fdiv msPerDay
  let tod := ms.emod msPerDay
  let c := civilFromDays z
  let y := c.1
  let m := c.2.1
  let d := c.2.2
  let ym := if m == 12 then (y + 1, (1 : Int)) else (y, m + 1)
  daysFromCivil ym.1 ym.2 d * msPerDay + tod

/-- The `if/else if` chain of `doTaskUpdate` on `recurring_rule`:
`daily` adds one day, `weekly` seven days (`setDate`, exact in UTC),
`monthly` one civil month (`setMonth`); any other rule leaves `nextDue`
at the current due time. -/
def addPeriodJS (rule : String) (ms : Int) : Int :=
  if rule == "daily" then ms + msPerDay
  else if rule == "weekly" then ms + 7 * msPerDay
  else if rule == "monthly" then addMonthJS ms
  else ms

/-- JS truthiness of the `recurring_rule` request field in
`if (completed && recurring_rule)`: null/undefined and `""` are falsy. -/
def truthyRule : Option String → Bool
  | none => false
  | some s => s != ""

/-- `taskRow.due_at ? new Date(taskRow.due_at) : new Date()`: the base of the
recurrence advance is the stored due instant, except that a NULL — or `0`,
which is falsy in JS — falls back to the current time. -/
def truthyDueBase (due : Option Int) (now : Int) : Int :=
  match due with
  | some d => if d == 0 then now else d
  | none => now

/-- Response of `PUT /api/tasks/:id`. -/
inductive PutResult where
  /-- `res.status(500).json({ error: ... })` -/
  | serverError (msg : String)
  /-- `res.status(400)` with the message `Cannot complete task while
  dependencies are incomplete` and the `missing` id list -/
  | depBlocked (missing : List String)
  /-- `res.json({ id, ...req.body })` — the 200 path echoes the request. -/
  | ok
deriving Repr, DecidableEq

/-- `doTaskUpdate` from the PUT handler: run the seven-column UPDATE; then, if
the request sets `completed` and carries a truthy `recurring_rule`, re-select
the row and insert one successor task with a due time advanced by one period.
`now` is `Date.now()`, `freshId` the `uuidv4()` drawn for the successor. -/
def doTaskUpdate (st : Store) (id : String) (req : UpdateReq) (now : Int)
    (freshId : String) : Store × PutResult :=
  let tasks1 := sqlUpdateTasks st.tasks id req
  if req.completed && truthyRule req.recurring_rule then
    match tasks1.find? (fun t => t.id == id) with
    | some taskRow =>
      let currentDue := truthyDueBase taskRow.due_at now
      let nextDue := addPeriodJS (req.recurring_rule.getD "") currentDue
      let succ : Task :=
        { id := freshId
          title := taskRow.title
          description := taskRow.description
          priority := taskRow.priority
          completed := false
          due_at := some nextDue
          created_by := taskRow.created_by
          assignee := taskRow.assignee
          recurring_rule := taskRow.recurring_rule
          created_at := now }
      ({ st with tasks := tasks1 ++ [succ] }, PutResult.ok)
    | none => ({ st with tasks := tasks1 }, PutResult.ok)
  else ({ st with tasks := tasks1 }, PutResult.ok)

/-- `app.put(/api/tasks/:id)`: when the request sets `completed`, first run
the dependency query (against the nonexistent `dependencies` table); a query
error is a 500, a nonempty row set a 400 with the blocking ids; otherwise (or
when `completed` is falsy) fall through to `doTaskUpdate`. -/
def putTask (st : Store) (id : String) (req : UpdateReq) (now : Int)
    (freshId : String) : Store × PutResult :=
  if req.completed then
    match selectIncompleteDependencies st id with
    | Except.error e => (st, PutResult.serverError e)
    | Except.ok rows =>
      if rows.length > 0 then (st, PutResult.depBlocked rows)
      else doTaskUpdate st id req now freshId
  else doTaskUpdate st id req now freshId

/-- Response of `DELETE /api/tasks/:id`. -/
inductive DeleteResult where
  | serverError (msg : String)
  /-- `res.json({ ok:true })` -/
  | ok
deriving Repr, DecidableEq

/-- `app.delete(/api/tasks/:id)`: `DELETE FROM tasks WHERE id=?` and answer
`{ ok:true }` — the handler never inspects `this.changes`, so a missing id is
answered the same way. -/
def deleteTask (st : Store) (id : String) : Store × DeleteResult :=
  ({ st with tasks := st.tasks.filter (fun t => !(t.id == id)) },
   DeleteResult.ok)

/-! ### Time tracking: `POST /api/time/:entryId/stop` -/

/-- `Math.max(0, Math.floor((stopped_at - row.started_at)/1000))` — JS
`Math.floor` on the real quotient is flooring integer division (`Int.fdiv`). -/
def stopDuration (started stopped : Int) : Int :=
  max 0 ((stopped - started).fdiv 1000)

/-- Response of `POST /api/time/:entryId/stop`. -/
inductive StopResult where
  /-- `res.status(404)` with the message `entry not found` -/
  | notFound
  /-- `res.json({ id: entryId, stopped_at, duration })` -/
  | stopped (stopped_at duration : Int)
deriving Repr, DecidableEq

/-- The stop handler: look the entry up (404 when absent), compute the
duration from `Date.now()` and the stored `started_at`, persist both. -/
def stopEntry (st : Store) (entryId : String) (now : Int) :
    Store × StopResult :=
  match st.time_entries.find? (fun e => e.id == entryId) with
  | none => (st, StopResult.notFound)
  | some row =>
    let d := stopDuration row.started_at now
    ({ st with
        time_entries := st.time_entries.map (fun e =>
          if e.id == entryId then
            { e with stopped_at := some now, duration := some d }
          else e) },
     StopResult.stopped now d)

/-! ### Reminder scheduler: `cron.schedule`, every minute -/

/-- The WHERE clause of the scan query:
`sent = 0 AND remind_at IS NOT NULL AND remind_at <= now`. -/
def isCandidate (now : Int) (r : Reminder) : Bool :=
  !r.sent &&
    (match r.remind_at with
     | some t => decide (t ≤ now)
     | none => false)

/-- `if (rem.snoozed_until && rem.snoozed_until > now) return;` — a NULL (or
`0`, falsy) snooze never skips. -/
def snoozeSkip (now : Int) (r : Reminder) : Bool :=
  match r.snoozed_until with
  | some s => s != 0 && decide (now < s)
  | none => false

/-- What one scan did to one reminder. -/
inductive ScanOutcome where
  /-- not in the row set of the query (already sent, or no/future `remind_at`) -/
  | notCandidate
  /-- skipped by the snooze filter -/
  | snoozed
  /-- `if (!to) return console.warn(...)` — no user email, skipped -/
  | noEmail
  /-- `transporter.sendMail` reported an error: nothing is written -/
  | deliveryFailed
  /-- delivery succeeded: `UPDATE reminders SET sent = 1` and the
  `reminder:sent` event -/
  | delivered
deriving Repr, DecidableEq

/-- The trip of one reminder through a scan at time `now`.  `emailFor` is the
`LEFT JOIN users` email lookup; `deliverOk` the `sendMail` outcome oracle. -/
def scanStep (now : Int) (emailFor : String → Option String)
    (deliverOk : String → Bool) (r : Reminder) : Reminder × ScanOutcome :=
  if !isCandidate now r then (r, ScanOutcome.notCandidate)
  else if snoozeSkip now r then (r, ScanOutcome.snoozed)
  else
    match r.user_id.bind emailFor with
    | none => (r, ScanOutcome.noEmail)
    | some _ =>
      if deliverOk r.id then ({ r with sent := true }, ScanOutcome.delivered)
      else (r, ScanOutcome.deliveryFailed)

/-- A whole scan: every reminder row is processed independently (the
`sent = 1` UPDATE is keyed by the primary key of the row being processed). -/
def scanReminders (now : Int) (emailFor : String → Option String)
    (deliverOk : String → Bool) (rs : List Reminder) :
    List (Reminder × ScanOutcome) :=
  rs.map (scanStep now emailFor deliverOk)

/-- The environment of one cron tick: the `Date.now()` of the tick, the email lookup of the users
table, and the delivery outcomes of that tick. -/
structure ScanEnv where
  now : Int
  emailFor : String → Option String
  deliverOk : String → Bool

/-- Run a sequence of scans, returning the final reminder rows and, per scan,
the outcome of every row (position-for-position). -/
def runScansTrace : List ScanEnv → List Reminder →
    List Reminder × List (List ScanOutcome)
  | [], rs => (rs, [])
  | e :: es, rs =>
    let step := scanReminders e.now e.emailFor e.deliverOk rs
    let rest := runScansTrace es (step.map Prod.fst)
    (rest.1, step.map Prod.snd :: rest.2)

/-! ### Sync reconciler: `POST /api/sync` -/

/-- The payload of a sync task operation (`op.payload`); every field is
client-supplied and may be absent. -/
structure SyncTaskPayload where
  id : Option String
  title : Option String
  description : Option String
  priority : Option String
  due_at : Option Int
  assignee : Option String
  recurring_rule : Option String
  completed : Bool
deriving Repr, DecidableEq

/-- A sync operation: the tagged variant over create/update of the data model
(`op.type` equal to `task` with `op.action` one of `create` or `update`). -/
inductive SyncOp where
  | create (t : SyncTaskPayload)
  | update (t : SyncTaskPayload)
deriving Repr, DecidableEq

/-- One slot of the `results` array: `{ ok:true, id }` or
`{ ok:false, error }` (an update echoes the possibly-absent id of the payload). -/
inductive SyncResult where
  | ok (id : Option String)
  | err (msg : String)
deriving Repr, DecidableEq

/-- JS `x || fallback` on an optional string: null/undefined and `""` take
the fallback. -/
def orElseStr (x : Option String) (fallback : String) : String :=
  match x with
  | some s => if s == "" then fallback else s
  | none => fallback

/-- JS `x || null` on an optional string: `""` collapses to null. -/
def orNullStr (x : Option String) : Option String :=
  x.bind (fun s => if s == "" then none else some s)

/-- JS `x || null` on an optional integer: `0` collapses to null. -/
def orNullInt (x : Option Int) : Option Int :=
  x.bind (fun d => if d == 0 then none else some d)

/-- The row bound by the sync-create
`INSERT OR REPLACE INTO tasks (...) VALUES (?,...)`:
`t.id || uuidv4()`, `t.title` or empty, `t.description` or empty,
`t.priority` or `medium`, `t.due_at || null`, `req.user.id`,
`t.assignee || null`, `t.recurring_rule || null`, `Date.now()`,
`t.completed?1:0`. -/
def createRow (user : String) (now : Int) (freshId : String)
    (t : SyncTaskPayload) : Task :=
  { id := orElseStr t.id freshId
    title := some (orElseStr t.title "")
    description := some (orElseStr t.description "")
    priority := some (orElseStr t.priority "medium")
    completed := t.completed
    due_at := orNullInt t.due_at
    created_by := some user
    assignee := orNullStr t.assignee
    recurring_rule := orNullStr t.recurring_rule
    created_at := now }

/-- `INSERT OR REPLACE` keyed on the `tasks` primary key: an existing row with
the same id is replaced in place, otherwise the row is appended. -/
def insertOrReplace (tasks : List Task) (row : Task) : List Task :=
  if tasks.any (fun t => t.id == row.id) then
    tasks.map (fun t => if t.id == row.id then row else t)
  else tasks ++ [row]

/-- The seven columns written by the sync-update
`UPDATE tasks SET title=?,description=?,priority=?,due_at=?,assignee=?,
recurring_rule=?,completed=? WHERE id=?` — raw payload values, no `||`
defaulting, so an absent field is bound as NULL. -/
def syncUpdateRow (t : SyncTaskPayload) (row : Task) : Task :=
  { row with
    title := t.title
    description := t.description
    priority := t.priority
    due_at := t.due_at
    assignee := t.assignee
    recurring_rule := t.recurring_rule
    completed := t.completed }

/-- Table effect of the sync update: `WHERE id = ?` with an absent payload id
binds NULL and matches no row; otherwise every row with the id is written.
The statement succeeds regardless of how many rows matched. -/
def syncApplyUpdate (tasks : List Task) (t : SyncTaskPayload) : List Task :=
  match t.id with
  | none => tasks
  | some i => tasks.map (fun row => if row.id == i then syncUpdateRow t row else row)

/-- The sequential loop of `POST /api/sync`, carrying the running operation
index `i`.  `freshIds i` is the `uuidv4()` available to operation `i`;
`dbFail i` is `some e` when the `db.run` of operation `i` fails (the `reject` →
`catch` path), `none` when it resolves.  Each operation pushes exactly one
result and a failure only affects its own slot. -/
def applySyncOps (user : String) (now : Int) (freshIds : Nat → String)
    (dbFail : Nat → Option String) :
    Nat → Store → List SyncOp → Store × List SyncResult
  | _, st, [] => (st, [])
  | i, st, op :: rest =>
    let step : Store × SyncResult :=
      match dbFail i with
      | some e => (st, SyncResult.err e)
      | none =>
        match op with
        | SyncOp.create t =>
          let row := createRow user now (freshIds i) t
          ({ st with tasks := insertOrReplace st.tasks row },
           SyncResult.ok (some row.id))
        | SyncOp.update t =>
          ({ st with tasks := syncApplyUpdate st.tasks t },
           SyncResult.ok t.id)
    let restOut := applySyncOps user now freshIds dbFail (i + 1) step.1 rest
    (restOut.1, step.2 :: restOut.2)

/-- `POST /api/sync` entry point: process `req.body.ops` from index 0. -/
def syncEndpoint (user : String) (now : Int) (freshIds : Nat → String)
    (dbFail : Nat → Option String) (st : Store) (ops : List SyncOp) :
    Store × List SyncResult :=
  applySyncOps user now freshIds dbFail 0 st ops

/-! ## Helper lemmas -/

/-- A conditional rewrite map over rows whose condition never fires leaves
the table unchanged. -/
theorem cond_map_eq_self {α : Type} (l : List α) (f : α → α) (p : α → Bool)
    (h : ∀ x ∈ l, p x = false) :
    (l.map fun x => if p x then f x else x) = l := by
  induction l with
  | nil => rfl
  | cons a l ih =>
    have ha := h a (List.mem_cons_self a l)
    simp [ha, ih fun x hx => h x (List.mem_cons_of_mem a hx)]

/-- Membership in the table after `doTaskUpdate` follows from membership in
the UPDATE-rewritten table (the recurrence branch only ever appends). -/
theorem doTaskUpdate_tasks_mem (st : Store) (id : String) (req : UpdateReq)
    (now : Int) (freshId : String) (x : Task)
    (hx : x ∈ sqlUpdateTasks st.tasks id req) :
    x ∈ (doTaskUpdate st id req now freshId).1.tasks := by
  simp only [doTaskUpdate]
  split
  · split
    · exact List.mem_append_left _ hx
    · exact hx
  · exact hx

/-! ## Shared concrete fixtures -/

/-- A store with all four tables empty. -/
def emptyStore : Store :=
  { tasks := [], task_dependencies := [], reminders := [], time_entries := [] }

/-- A completed prerequisite task. -/
def taskB : Task :=
  { id := "B", title := some "prereq", description := none,
    priority := some "high", completed := true, due_at := none,
    created_by := some "u", assignee := none, recurring_rule := none,
    created_at := 0 }

/-- An incomplete task that depends on `taskB`. -/
def taskA : Task :=
  { id := "A", title := some "main", description := none,
    priority := some "medium", completed := false, due_at := none,
    created_by := some "u", assignee := none, recurring_rule := none,
    created_at := 0 }

/-- Failing input for the dependency validator: task `A` has the single
prerequisite `B`, and `B` is complete, so the incomplete-prerequisite set of
`A` is empty and completing `A` must be allowed. -/
def c1Store : Store :=
  { tasks := [taskA, taskB], task_dependencies := [("A", "B")],
    reminders := [], time_entries := [] }

/-- An update request that marks the task completed. -/
def completeReq : UpdateReq :=
  { title := some "main", description := none, priority := some "medium",
    completed := true, due_at := none, assignee := none,
    recurring_rule := none }

/-! ## C1 — dependency-validated completion -/

/-- Claim C1: the spec says an update setting `completed=true` is validated
against the dependency graph, reports the incomplete prerequisites on
rejection, and succeeds iff that set is empty.  The code instead queries the
nonexistent table `dependencies` (the schema creates `task_dependencies`), so
EVERY completion attempt — whatever the dependency state — answers 500 with a
store error and writes nothing.  This theorem evaluates that divergence. -/
theorem put_completed_always_no_such_table (st : Store) (id : String)
    (req : UpdateReq) (now : Int) (freshId : String)
    (hc : req.completed = true) :
    putTask st id req now freshId =
      (st, PutResult.serverError "SQLITE_ERROR: no such table: dependencies") := by
  have h : selectIncompleteDependencies st id =
      Except.error "SQLITE_ERROR: no such table: dependencies" := rfl
  simp [putTask, hc, h]

/-- Witness for C1 at the failing input: the incomplete-prerequisite set of
`A` is empty (its only prerequisite `B` is complete), yet the completion
attempt is rejected with the table error and no field is written. -/
theorem put_completed_always_no_such_table_witness :
    putTask c1Store "A" completeReq 1000 "N1" =
      (c1Store, PutResult.serverError "SQLITE_ERROR: no such table: dependencies") ∧
    incompleteDepsJoin c1Store.tasks c1Store.task_dependencies "A" = [] :=
  ⟨put_completed_always_no_such_table c1Store "A" completeReq 1000 "N1" rfl,
   by decide⟩

/-! ## C8 — single-item update/delete on a missing id -/

/-- Claim C8 (amended): the spec says single-item update and delete report
NotFound for a missing task id.  Neither handler inspects `this.changes`: an
update whose request does not set `completed` answers 200 echoing the request
body, delete answers `{ ok:true }`, and in both cases nothing is written. -/
theorem single_update_delete_missing_id_ok (st : Store) (id : String)
    (req : UpdateReq) (now : Int) (freshId : String)
    (hmiss : ∀ t ∈ st.tasks, t.id ≠ id) (hnc : req.completed = false) :
    putTask st id req now freshId = (st, PutResult.ok) ∧
    deleteTask st id = (st, DeleteResult.ok) := by
  have hfalse : ∀ t ∈ st.tasks, (t.id == id) = false := fun t ht =>
    beq_eq_false_iff_ne.mpr (hmiss t ht)
  have htasks : sqlUpdateTasks st.tasks id req = st.tasks :=
    cond_map_eq_self st.tasks (fun t => overwriteRow t req)
      (fun t => t.id == id) hfalse
  constructor
  · calc putTask st id req now freshId
        = ({ st with tasks := sqlUpdateTasks st.tasks id req },
           PutResult.ok) := by simp [putTask, hnc, doTaskUpdate]
      _ = (st, PutResult.ok) := by rw [htasks]
  · calc deleteTask st id
        = ({ st with tasks := st.tasks.filter (fun t => !(t.id == id)) },
           DeleteResult.ok) := rfl
      _ = (st, DeleteResult.ok) := by
          rw [List.filter_eq_self.mpr (fun a ha => by simp [hfalse a ha])]

/-- An update request that does not set `completed`. -/
def missReq : UpdateReq :=
  { title := some "x", description := none, priority := none,
    completed := false, due_at := none, assignee := none,
    recurring_rule := none }

/-- Counterexample to C8 as stated: on an empty store, updating and deleting
the nonexistent id `ghost` both answer success (200 echo resp. `{ ok:true }`),
not NotFound. -/
theorem single_update_delete_missing_id_counterexample :
    putTask emptyStore "ghost" missReq 0 "N2" = (emptyStore, PutResult.ok) ∧
    deleteTask emptyStore "ghost" = (emptyStore, DeleteResult.ok) :=
  ⟨rfl, rfl⟩

/-- Witness for the amended C8. -/
theorem single_update_delete_missing_id_ok_witness :
    putTask emptyStore "nobody" missReq 5 "N3" = (emptyStore, PutResult.ok) ∧
    deleteTask emptyStore "nobody" = (emptyStore, DeleteResult.ok) :=
  single_update_delete_missing_id_ok emptyStore "nobody" missReq 5 "N3"
    (fun t ht => by simp [emptyStore] at ht) rfl

/-! ## C9 — time-entry stop duration -/

/-- An open time entry started at t0 = 1000 ms. -/
def c9Entry : TimeEntry :=
  { id := "E1", task_id := some "A", user_id := some "u",
    started_at := 1000, stopped_at := none, duration := none }

/-- A store holding the single open entry `c9Entry`. -/
def c9Store : Store :=
  { tasks := [], task_dependencies := [], reminders := [],
    time_entries := [c9Entry] }

/-- Claim C9: stopping a time entry records
`Math.max(0, Math.floor((stop - start)/1000))`: the stop answers with exactly
that duration; a stop 125 s after the start yields 125; a stop earlier than
the start yields 0, never negative; and for any stop at or after the start
the duration is the floored whole-second difference. -/
theorem stop_entry_duration_spec (st : Store) (entryId : String)
    (row : TimeEntry) (now : Int)
    (hfind : st.time_entries.find? (fun e => e.id == entryId) = some row) :
    (stopEntry st entryId now).2 =
        StopResult.stopped now (stopDuration row.started_at now) ∧
    (now = row.started_at + 125000 → stopDuration row.started_at now = 125) ∧
    (now < row.started_at → stopDuration row.started_at now = 0) ∧
    (row.started_at ≤ now →
      stopDuration row.started_at now = (now - row.started_at).fdiv 1000) := by
  refine ⟨?_, ?_, ?_, ?_⟩
  · simp [stopEntry, hfind]
  · intro h
    subst h
    have h1 : row.started_at + 125000 - row.started_at = 125000 := by ring
    show max 0 ((row.started_at + 125000 - row.started_at).fdiv 1000) = 125
    rw [h1]
    decide
  · intro h
    have hneg : now - row.started_at < 0 := by omega
    have h2 : (now - row.started_at).fdiv 1000 < 0 :=
      Int.fdiv_neg' hneg (by norm_num)
    show max 0 ((now - row.started_at).fdiv 1000) = 0
    exact max_eq_left h2.le
  · intro h
    have h0 : 0 ≤ now - row.started_at := by omega
    have h2 : 0 ≤ (now - row.started_at).fdiv 1000 :=
      Int.fdiv_nonneg h0 (by norm_num)
    show max 0 ((now - row.started_at).fdiv 1000) =
        (now - row.started_at).fdiv 1000
    exact max_eq_right h2

/-- Witness for C9: the entry started at 1000 ms and stopped at 126000 ms
(125 s later) answers duration 125. -/
theorem stop_entry_duration_spec_witness :
    (stopEntry c9Store "E1" 126000).2 =
        StopResult.stopped 126000 (stopDuration 1000 126000) ∧
    stopDuration 1000 126000 = 125 := by
  have h := stop_entry_duration_spec c9Store "E1" c9Entry 126000 rfl
  exact ⟨h.1, h.2.1 rfl⟩

/-! ## C10 — the single-item update writes all seven fields -/

/-- Claim C10: `doTaskUpdate` binds all seven mutable columns from the request
on every call, so a field omitted from the request (bound NULL) overwrites the
stored value rather than retaining it.  The row for the targeted id in the
resulting table carries exactly the request values in the seven columns —
`none` for the omitted ones, including `recurring_rule` and `due_at` — and
keeps only `id`, `created_by` and `created_at` from the stored row. -/
theorem update_overwrites_all_seven_fields (st : Store) (id : String)
    (req : UpdateReq) (now : Int) (freshId : String) (t : Task)
    (ht : t ∈ st.tasks) (hid : t.id = id) :
    ({ id := id, title := req.title, description := req.description,
       priority := req.priority, completed := req.completed,
       due_at := req.due_at, created_by := t.created_by,
       assignee := req.assignee, recurring_rule := req.recurring_rule,
       created_at := t.created_at } : Task) ∈
      (doTaskUpdate st id req now freshId).1.tasks := by
  subst hid
  have hself : (t.id == t.id) = true := beq_self_eq_true t.id
  have hmem : ({ id := t.id, title := req.title,
                 description := req.description, priority := req.priority,
                 completed := req.completed, due_at := req.due_at,
                 created_by := t.created_by, assignee := req.assignee,
                 recurring_rule := req.recurring_rule,
                 created_at := t.created_at } : Task) ∈
      sqlUpdateTasks st.tasks t.id req := by
    refine List.mem_map.mpr ⟨t, ht, ?_⟩
    simp [hself, overwriteRow]
  exact doTaskUpdate_tasks_mem st t.id req now freshId _ hmem

/-- A stored task with every mutable field populated. -/
def c10Task : Task :=
  { id := "T1", title := some "old", description := some "olddesc",
    priority := some "high", completed := false, due_at := some 111,
    created_by := some "u", assignee := some "v",
    recurring_rule := some "daily", created_at := 5 }

/-- A store holding `c10Task`. -/
def c10Store : Store :=
  { tasks := [c10Task], task_dependencies := [], reminders := [],
    time_entries := [] }

/-- A partial update mentioning only the title. -/
def clearReq : UpdateReq :=
  { title := some "new", description := none, priority := none,
    completed := false, due_at := none, assignee := none,
    recurring_rule := none }

/-- Witness for C10: after a title-only update of `c10Task`, the stored row
has the description, priority, due date, assignee and recurrence rule all
cleared to NULL. -/
theorem update_overwrites_all_seven_fields_witness :
    ({ id := "T1", title := some "new", description := none, priority := none,
       completed := false, due_at := none, created_by := some "u",
       assignee := none, recurring_rule := none,
       created_at := 5 } : Task) ∈
      (doTaskUpdate c10Store "T1" clearReq 99 "N4").1.tasks :=
  update_overwrites_all_seven_fields c10Store "T1" clearReq 99 "N4" c10Task
    (by simp [c10Store]) rfl

/-! ## C2 — recurrence generation on completion -/

/-- `overwriteRow` spelt as a literal: the seven request columns plus the
kept `id`, `created_by`, `created_at`. -/
@[simp] theorem overwriteRow_eq (t : Task) (r : UpdateReq) :
    overwriteRow t r =
      { id := t.id, title := r.title, description := r.description,
        priority := r.priority, completed := r.completed, due_at := r.due_at,
        created_by := t.created_by, assignee := r.assignee,
        recurring_rule := r.recurring_rule, created_at := t.created_at } :=
  rfl

/-- The re-SELECT after the UPDATE finds the rewritten first matching row. -/
theorem find?_sqlUpdateTasks (tasks : List Task) (id : String) (r : UpdateReq) :
    (sqlUpdateTasks tasks id r).find? (fun u => u.id == id) =
      (tasks.find? (fun u => u.id == id)).map (fun t => overwriteRow t r) := by
  induction tasks with
  | nil => rfl
  | cons a l ih =>
    by_cases h : (a.id == id) = true
    · have he : a.id = id := by simpa using h
      simp [sqlUpdateTasks, List.find?_cons, he]
    · have h3 : (a.id == id) = false := by simpa using h
      have h4 : ((overwriteRow a r).id == id) = false := by simpa using h
      simp only [sqlUpdateTasks, List.map_cons, h3, Bool.false_eq_true,
        if_false, List.find?_cons, h4]
      exact ih

/-- The recurrence base ignores the JS-falsy `0`; away from `0` it is the
stored due instant, with the current time for NULL. -/
theorem truthyDueBase_of_ne_zero (due : Option Int) (now : Int)
    (h : due ≠ some 0) : truthyDueBase due now = due.getD now := by
  cases due with
  | none => rfl
  | some d =>
    have hd : d ≠ 0 := fun h0 => h (by rw [h0])
    simp [truthyDueBase, hd]

/-- Unfolding of `doTaskUpdate` on the recurrence path, given the branch
condition and the result of the re-SELECT. -/
theorem doTaskUpdate_recur_eq (st : Store) (id : String) (req : UpdateReq)
    (now : Int) (freshId : String) (t' : Task)
    (hcond : (req.completed && truthyRule req.recurring_rule) = true)
    (hfind2 : (sqlUpdateTasks st.tasks id req).find? (fun u => u.id == id) =
      some t') :
    doTaskUpdate st id req now freshId =
      ({ st with tasks := sqlUpdateTasks st.tasks id req ++
          [{ id := freshId, title := t'.title, description := t'.description,
             priority := t'.priority, completed := false,
             due_at := some (addPeriodJS (req.recurring_rule.getD "")
               (truthyDueBase t'.due_at now)),
             created_by := t'.created_by, assignee := t'.assignee,
             recurring_rule := t'.recurring_rule, created_at := now }] },
       PutResult.ok) := by
  simp only [doTaskUpdate, hcond, if_true, hfind2]

/-- Claim C2 (amended): when `doTaskUpdate` runs with `completed=true` and a
recurrence rule among daily/weekly/monthly, exactly one successor task is
appended; it inherits title, description, priority, assignee, recurrence rule
(and creator) from the just-updated task row, starts incomplete with the
freshly drawn identifier and the current creation timestamp, and its due
instant is the prior due instant advanced by one period — daily +86400000 ms,
weekly +604800000 ms, monthly +1 civil month with ECMAScript day-overflow —
where the base is the current time when the task had no due timestamp.
Amendment forced by the counterexample: a stored due timestamp of exactly 0
(the epoch) is JS-falsy and is treated as absent, so the base is then the
current time as well; hence the hypothesis `req.due_at ≠ some 0`. -/
theorem recurrence_successor_spec (st : Store) (id : String) (req : UpdateReq)
    (now : Int) (freshId : String) (t : Task) (rule : String)
    (hfind : st.tasks.find? (fun u => u.id == id) = some t)
    (hc : req.completed = true)
    (hr : req.recurring_rule = some rule)
    (hrule : rule = "daily" ∨ rule = "weekly" ∨ rule = "monthly")
    (hdue : req.due_at ≠ some 0) :
    (doTaskUpdate st id req now freshId).1.tasks =
      sqlUpdateTasks st.tasks id req ++
        [{ id := freshId, title := req.title, description := req.description,
           priority := req.priority, completed := false,
           due_at := some (addPeriodJS rule (req.due_at.getD now)),
           created_by := t.created_by, assignee := req.assignee,
           recurring_rule := req.recurring_rule, created_at := now }] ∧
    (rule = "daily" →
      addPeriodJS rule (req.due_at.getD now) =
        req.due_at.getD now + 86400000) ∧
    (rule = "weekly" →
      addPeriodJS rule (req.due_at.getD now) =
        req.due_at.getD now + 7 * 86400000) ∧
    (rule = "monthly" →
      addPeriodJS rule (req.due_at.getD now) =
        addMonthJS (req.due_at.getD now)) := by
  have htr : (req.completed && truthyRule req.recurring_rule) = true := by
    rcases hrule with h | h | h <;> subst h <;> simp [hc, hr, truthyRule]
  have hfind2 : (sqlUpdateTasks st.tasks id req).find? (fun u => u.id == id) =
      some (overwriteRow t req) := by
    rw [find?_sqlUpdateTasks, hfind]
    rfl
  have hstep :=
    doTaskUpdate_recur_eq st id req now freshId (overwriteRow t req) htr hfind2
  refine ⟨?_, ?_, ?_, ?_⟩
  · rw [hstep]
    simp only [overwriteRow_eq, hr]
    rw [truthyDueBase_of_ne_zero _ _ hdue]
    rfl
  · intro h
    subst h
    simp [addPeriodJS, msPerDay]
  · intro h
    subst h
    have h1 : (("weekly" : String) == "daily") = false := by decide
    simp [addPeriodJS, h1, msPerDay]
  · intro h
    subst h
    have h1 : (("monthly" : String) == "daily") = false := by decide
    have h2 : (("monthly" : String) == "weekly") = false := by decide
    simp [addPeriodJS, h1, h2]

/-- A recurring daily task whose stored due timestamp is exactly the epoch. -/
def epochTask : Task :=
  { id := "R", title := some "T", description := none,
    priority := some "medium", completed := false, due_at := some 0,
    created_by := some "u", assignee := none,
    recurring_rule := some "daily", created_at := 0 }

/-- A store holding `epochTask`. -/
def c2Store : Store :=
  { tasks := [epochTask], task_dependencies := [], reminders := [],
    time_entries := [] }

/-- A completing update that keeps the epoch due date and the daily rule. -/
def dailyCompleteReq : UpdateReq :=
  { title := some "T", description := none, priority := some "medium",
    completed := true, due_at := some 0, assignee := none,
    recurring_rule := some "daily" }

/-- Counterexample to C2 as stated: completing the daily task whose prior due
timestamp is 0 at now = 5000000 creates a successor due at
now + 1 day = 91400000, not at the prior due timestamp + 1 day = 86400000 —
the code treats the JS-falsy due value 0 as absent. -/
theorem recurrence_epoch_due_counterexample :
    ((doTaskUpdate c2Store "R" dailyCompleteReq 5000000 "N5").1.tasks.map
        Task.due_at) = [some 0, some 91400000] ∧
    (91400000 : Int) ≠ 0 + 86400000 := by
  decide

/-- A recurring monthly task due 2024-01-15T10:00:00Z (= 1705312800000 ms). -/
def monthlyTask : Task :=
  { id := "M", title := some "report", description := some "monthly report",
    priority := some "high", completed := false,
    due_at := some 1705312800000, created_by := some "u",
    assignee := some "v", recurring_rule := some "monthly", created_at := 0 }

/-- A store holding `monthlyTask`. -/
def c2wStore : Store :=
  { tasks := [monthlyTask], task_dependencies := [], reminders := [],
    time_entries := [] }

/-- The completing update carrying the same fields as `monthlyTask`. -/
def monthlyCompleteReq : UpdateReq :=
  { title := some "report", description := some "monthly report",
    priority := some "high", completed := true,
    due_at := some 1705312800000, assignee := some "v",
    recurring_rule := some "monthly" }

/-- Witness for the amended C2: completing the monthly task due
2024-01-15T10:00:00Z appends exactly one incomplete successor with inherited
fields and due 2024-02-15T10:00:00Z (= 1707991200000 ms). -/
theorem recurrence_successor_spec_witness :
    (doTaskUpdate c2wStore "M" monthlyCompleteReq 1706000000000 "N6").1.tasks =
      sqlUpdateTasks c2wStore.tasks "M" monthlyCompleteReq ++
        [{ id := "N6", title := some "report",
           description := some "monthly report", priority := some "high",
           completed := false,
           due_at := some (addPeriodJS "monthly"
             (monthlyCompleteReq.due_at.getD 1706000000000)),
           created_by := some "u", assignee := some "v",
           recurring_rule := some "monthly",
           created_at := 1706000000000 }] ∧
    addPeriodJS "monthly" 1705312800000 = 1707991200000 := by
  have h := recurrence_successor_spec c2wStore "M" monthlyCompleteReq
    1706000000000 "N6" monthlyTask "monthly" rfl rfl rfl
    (Or.inr (Or.inr rfl)) (by decide)
  exact ⟨h.1, by decide⟩

/-! ## C3 / C4 — reminder scheduler -/

/-- An already-sent reminder is outside the row set of the scan query and is
returned untouched. -/
theorem scanStep_of_sent (now : Int) (ef : String → Option String)
    (dk : String → Bool) (r : Reminder) (h : r.sent = true) :
    scanStep now ef dk r = (r, ScanOutcome.notCandidate) := by
  simp [scanStep, isCandidate, h]

/-- When delivery fails, the scan writes nothing for that reminder and does
not report it delivered. -/
theorem scanStep_of_deliver_false (now : Int) (ef : String → Option String)
    (dk : String → Bool) (r : Reminder) (h : dk r.id = false) :
    (scanStep now ef dk r).1 = r ∧
    (scanStep now ef dk r).2 ≠ ScanOutcome.delivered := by
  unfold scanStep
  split
  · simp
  · split
    · simp
    · cases hmail : r.user_id.bind ef with
      | none => simp [hmail]
      | some m => simp [hmail, h]

/-- Claim C3: the scheduler marks `sent = true` only when the delivery
collaborator reports success; on failure the reminder row is left exactly as
it was (hence re-evaluated by the next scan, which reads only the rows); and
once `sent = true` the reminder is outside the candidate row set of every
subsequent scan — across any sequence of scans it is never delivered again
and stays sent. -/
theorem reminder_sent_only_on_success_never_redelivered
    (now : Int) (emailFor : String → Option String)
    (deliverOk : String → Bool) (r : Reminder) :
    ((scanStep now emailFor deliverOk r).1.sent = true →
      r.sent = true ∨ deliverOk r.id = true) ∧
    (deliverOk r.id = false →
      (scanStep now emailFor deliverOk r).1 = r ∧
      (scanStep now emailFor deliverOk r).2 ≠ ScanOutcome.delivered) ∧
    (∀ (envs : List ScanEnv) (rs : List Reminder) (i : Nat) (r' : Reminder),
      rs[i]? = some r' → r'.sent = true →
      (runScansTrace envs rs).1[i]? = some r' ∧
      ∀ tr ∈ (runScansTrace envs rs).2,
        tr[i]? = some ScanOutcome.notCandidate) := by
  refine ⟨?_, scanStep_of_deliver_false now emailFor deliverOk r, ?_⟩
  · unfold scanStep
    split
    · exact fun h => Or.inl h
    · split
      · exact fun h => Or.inl h
      · split
        · exact fun h => Or.inl h
        · split
          · next hdk => exact fun _ => Or.inr hdk
          · exact fun h => Or.inl h
  · intro envs
    induction envs with
    | nil =>
      intro rs i r' hget hsent
      refine ⟨hget, ?_⟩
      intro tr htr
      simp [runScansTrace] at htr
    | cons e es ih =>
      intro rs i r' hget hsent
      have hstep : (scanReminders e.now e.emailFor e.deliverOk rs)[i]? =
          some (r', ScanOutcome.notCandidate) := by
        rw [scanReminders, List.getElem?_map, hget]
        rw [Option.map_some']
        rw [scanStep_of_sent e.now e.emailFor e.deliverOk r' hsent]
      have hfst :
          ((scanReminders e.now e.emailFor e.deliverOk rs).map Prod.fst)[i]? =
            some r' := by
        rw [List.getElem?_map, hstep]
        rfl
      have hrec := ih ((scanReminders e.now e.emailFor e.deliverOk rs).map
        Prod.fst) i r' hfst hsent
      refine ⟨?_, ?_⟩
      · simpa [runScansTrace] using hrec.1
      · intro tr htr
        simp only [runScansTrace] at htr
        rcases List.mem_cons.mp htr with h1 | h2
        · subst h1
          rw [List.getElem?_map, hstep]
          rfl
        · exact hrec.2 tr h2

/-- Claim C4: during a scan at `now`, a reminder whose `snoozed_until` is set
and greater than `now` is neither delivered nor written (even when its
`remind_at` has passed); and on any scan with `now ≥ snoozed_until` the snooze
filter no longer applies, so an unsent, due reminder whose user has an email
is attempted for delivery (ending delivered or deliveryFailed). -/
theorem reminder_snooze_filter (now s : Int)
    (emailFor : String → Option String) (deliverOk : String → Bool)
    (r : Reminder) (hnow : 0 ≤ now) (hs : r.snoozed_until = some s) :
    (now < s →
      (scanStep now emailFor deliverOk r).1 = r ∧
      (scanStep now emailFor deliverOk r).2 ≠ ScanOutcome.delivered) ∧
    (s ≤ now → r.sent = false → ∀ ta, r.remind_at = some ta → ta ≤ now →
      (r.user_id.bind emailFor).isSome = true →
      ((scanStep now emailFor deliverOk r).2 = ScanOutcome.delivered ∨
       (scanStep now emailFor deliverOk r).2 = ScanOutcome.deliveryFailed)) := by
  constructor
  · intro hlt
    have hs0 : s ≠ 0 := by omega
    have hskip : snoozeSkip now r = true := by
      simp [snoozeSkip, hs, hs0, hlt]
    unfold scanStep
    split
    · simp
    · simp [hskip]
  · intro hge hsent ta hta hle hmail
    have hcand : isCandidate now r = true := by
      simp [isCandidate, hsent, hta, hle]
    have hskip : snoozeSkip now r = false := by
      simp only [snoozeSkip, hs]
      simp [show ¬(now < s) by omega]
    rcases Option.isSome_iff_exists.mp hmail with ⟨m, hm⟩
    by_cases hdk : deliverOk r.id = true
    · left
      simp [scanStep, hcand, hskip, hm, hdk]
    · right
      have hdk' : deliverOk r.id = false := by simpa using hdk
      simp [scanStep, hcand, hskip, hm, hdk']

/-- An already-sent reminder. -/
def sentReminder : Reminder :=
  { id := "RM1", task_id := some "A", user_id := some "u",
    remind_at := some 100, snoozed_until := none, sent := true }

/-- An unsent, due reminder. -/
def dueReminder : Reminder :=
  { id := "RM2", task_id := some "A", user_id := some "u",
    remind_at := some 100, snoozed_until := none, sent := false }

/-- An unsent, due reminder snoozed until 500. -/
def snoozedReminder : Reminder :=
  { id := "RM3", task_id := some "A", user_id := some "u",
    remind_at := some 100, snoozed_until := some 500, sent := false }

/-- The email lookup used by the witnesses. -/
def wEmail : String → Option String := fun _ => some "u@example.com"

/-- A delivery oracle that always fails. -/
def wFail : String → Bool := fun _ => false

/-- A scan environment at now = 200 whose deliveries fail. -/
def env0 : ScanEnv := { now := 200, emailFor := wEmail, deliverOk := wFail }

/-- Witness for C3: a failing delivery leaves the due reminder untouched and
unreported, and the already-sent reminder survives a scan unchanged, outside
the candidate set, and is never delivered. -/
theorem reminder_sent_only_on_success_never_redelivered_witness :
    ((scanStep 200 wEmail wFail dueReminder).1 = dueReminder ∧
     (scanStep 200 wEmail wFail dueReminder).2 ≠ ScanOutcome.delivered) ∧
    ((runScansTrace [env0] [sentReminder]).1[0]? = some sentReminder ∧
     ∀ tr ∈ (runScansTrace [env0] [sentReminder]).2,
       tr[0]? = some ScanOutcome.notCandidate) :=
  ⟨(reminder_sent_only_on_success_never_redelivered 200 wEmail wFail
      dueReminder).2.1 rfl,
   (reminder_sent_only_on_success_never_redelivered 200 wEmail wFail
      dueReminder).2.2 [env0] [sentReminder] 0 sentReminder rfl rfl⟩

/-- Witness for C4: at now = 200 the snooze (until 500) suppresses the due
reminder entirely; at now = 600 the snooze has lapsed and delivery is
attempted. -/
theorem reminder_snooze_filter_witness :
    ((scanStep 200 wEmail wFail snoozedReminder).1 = snoozedReminder ∧
     (scanStep 200 wEmail wFail snoozedReminder).2 ≠ ScanOutcome.delivered) ∧
    ((scanStep 600 wEmail wFail snoozedReminder).2 = ScanOutcome.delivered ∨
     (scanStep 600 wEmail wFail snoozedReminder).2 =
       ScanOutcome.deliveryFailed) :=
  ⟨(reminder_snooze_filter 200 500 wEmail wFail snoozedReminder (by decide)
      rfl).1 (by decide),
   (reminder_snooze_filter 600 500 wEmail wFail snoozedReminder (by decide)
      rfl).2 (by decide) rfl 100 rfl (by decide) rfl⟩

/-! ## C5 — sync batch shape and failure isolation -/

/-- Every operation of a sync batch contributes exactly one result slot. -/
theorem applySyncOps_length (user : String) (now : Int)
    (freshIds : Nat → String) (dbFail : Nat → Option String) :
    ∀ (ops : List SyncOp) (i : Nat) (st : Store),
      (applySyncOps user now freshIds dbFail i st ops).2.length =
        ops.length := by
  intro ops
  induction ops with
  | nil => intro i st; rfl
  | cons op rest ih =>
    intro i st
    simp only [applySyncOps, List.length_cons]
    rw [ih]

/-- Claim C5: the reconciler answers exactly one result per input operation,
in input order (the sequential loop conses the result of the head operation
onto the results of the tail), and a failing operation only occupies its own
slot: the batch continues with the remaining operations from the unchanged
store. -/
theorem sync_one_result_per_op_failure_isolated
    (user : String) (now : Int) (freshIds : Nat → String)
    (dbFail : Nat → Option String) (st : Store) (ops : List SyncOp) :
    (syncEndpoint user now freshIds dbFail st ops).2.length = ops.length ∧
    (∀ (i : Nat) (st' : Store) (op : SyncOp) (rest : List SyncOp)
        (e : String), dbFail i = some e →
      applySyncOps user now freshIds dbFail i st' (op :: rest) =
        ((applySyncOps user now freshIds dbFail (i + 1) st' rest).1,
         SyncResult.err e ::
           (applySyncOps user now freshIds dbFail (i + 1) st' rest).2)) := by
  refine ⟨applySyncOps_length user now freshIds dbFail ops 0 st, ?_⟩
  intro i st' op rest e hf
  simp only [applySyncOps, hf]

/-- A sync create payload with client id `B1`. -/
def pB : SyncTaskPayload :=
  { id := some "B1", title := some "b", description := none, priority := none,
    due_at := none, assignee := none, recurring_rule := none,
    completed := false }

/-- A store-failure oracle that fails exactly the second operation. -/
def failAt1 : Nat → Option String := fun i => if i == 1 then some "SQLITE_BUSY" else none

/-- Witness for C5: a three-operation batch whose second operation fails
still answers three results, and the failing slot records the error while
processing continues from the unchanged store. -/
theorem sync_one_result_per_op_failure_isolated_witness :
    (syncEndpoint "u" 0 (fun _ => "F") failAt1 emptyStore
        [SyncOp.create pB, SyncOp.create pB, SyncOp.create pB]).2.length = 3 ∧
    applySyncOps "u" 0 (fun _ => "F") failAt1 1 emptyStore
        [SyncOp.create pB] =
      ((applySyncOps "u" 0 (fun _ => "F") failAt1 2 emptyStore []).1,
       SyncResult.err "SQLITE_BUSY" ::
         (applySyncOps "u" 0 (fun _ => "F") failAt1 2 emptyStore []).2) :=
  ⟨(sync_one_result_per_op_failure_isolated "u" 0 (fun _ => "F") failAt1
      emptyStore [SyncOp.create pB, SyncOp.create pB, SyncOp.create pB]).1,
   (sync_one_result_per_op_failure_isolated "u" 0 (fun _ => "F") failAt1
      emptyStore [SyncOp.create pB, SyncOp.create pB, SyncOp.create pB]).2
     1 emptyStore (SyncOp.create pB) [] "SQLITE_BUSY" rfl⟩

/-! ## C6 — sync update on a nonexistent id -/

/-- Claim C6 (amended): a sync update targeting an id that names no stored
task runs `UPDATE ... WHERE id=?` against zero rows, which succeeds, so the
batch records `{ ok:true, id }` for that slot and the store is unchanged — a
silent no-op success, not a reported failure. -/
theorem sync_update_missing_id_silent_ok (user : String) (now : Int)
    (freshIds : Nat → String) (dbFail : Nat → Option String) (i : Nat)
    (st : Store) (t : SyncTaskPayload) (h0 : dbFail i = none)
    (hmiss : ∀ row ∈ st.tasks, some row.id ≠ t.id) :
    applySyncOps user now freshIds dbFail i st [SyncOp.update t] =
      (st, [SyncResult.ok t.id]) := by
  have htasks : syncApplyUpdate st.tasks t = st.tasks := by
    rcases ht : t.id with _ | j
    · simp [syncApplyUpdate, ht]
    · have hfalse : ∀ row ∈ st.tasks, (row.id == j) = false := by
        intro row hrow
        have hne := hmiss row hrow
        rw [ht] at hne
        have h2 : row.id ≠ j := fun hji => hne (by rw [hji])
        simpa using h2
      simp only [syncApplyUpdate, ht]
      exact cond_map_eq_self st.tasks (syncUpdateRow t)
        (fun row => row.id == j) hfalse
  simp only [applySyncOps, h0, htasks]

/-- A sync update payload targeting the nonexistent id `ghost`. -/
def ghostPayload : SyncTaskPayload :=
  { id := some "ghost", title := some "x", description := none,
    priority := none, due_at := none, assignee := none,
    recurring_rule := none, completed := false }

/-- Counterexample to C6 as stated: on an empty store, the one-operation
batch `update(id=ghost, title=x)` answers `[{ ok:true, id:ghost }]` and
writes nothing — success, not the failure the claim requires. -/
theorem sync_update_missing_id_counterexample :
    syncEndpoint "u" 0 (fun _ => "F") (fun _ => none) emptyStore
        [SyncOp.update ghostPayload] =
      (emptyStore, [SyncResult.ok (some "ghost")]) := rfl

/-- A store whose only task is `taskB`. -/
def otherStore : Store :=
  { tasks := [taskB], task_dependencies := [], reminders := [],
    time_entries := [] }

/-- Witness for the amended C6 on a nonempty store. -/
theorem sync_update_missing_id_silent_ok_witness :
    applySyncOps "u" 7 (fun _ => "F") (fun _ => none) 0 otherStore
        [SyncOp.update ghostPayload] =
      (otherStore, [SyncResult.ok (some "ghost")]) :=
  sync_update_missing_id_silent_ok "u" 7 (fun _ => "F") (fun _ => none) 0
    otherStore ghostPayload rfl (by decide)

/-! ## C7 — idempotence of sync create under a client-supplied id -/

/-- A truthy client id survives the `t.id || uuidv4()` defaulting. -/
theorem createRow_id (user : String) (now : Int) (freshId : String)
    (t : SyncTaskPayload) (s : String) (hid : t.id = some s) (hs : s ≠ "") :
    (createRow user now freshId t).id = s := by
  simp [createRow, orElseStr, hid, hs]

/-- The sync UPDATE does not touch the primary key. -/
@[simp] theorem syncUpdateRow_id (t : SyncTaskPayload) (row : Task) :
    (syncUpdateRow t row).id = row.id := rfl

/-- Effect on the tasks table of the batch `[create t1, update t2]` when both
operations carry the same truthy client id `s`: with `s` already present,
every row with id `s` is replaced in place by the update-rewritten create
row; otherwise that row is appended. -/
theorem syncBatch_tasks (user : String) (now : Int) (f : Nat → String)
    (st : Store) (t1 t2 : SyncTaskPayload) (s : String)
    (h1 : t1.id = some s) (h2 : t2.id = some s) (hs : s ≠ "") :
    (syncEndpoint user now f (fun _ => none) st
        [SyncOp.create t1, SyncOp.update t2]).1.tasks =
      (if st.tasks.any (fun x => x.id == s) then
        st.tasks.map (fun x => if x.id == s then
          syncUpdateRow t2 (createRow user now (f 0) t1) else x)
      else st.tasks ++ [syncUpdateRow t2 (createRow user now (f 0) t1)]) := by
  have hrid : (createRow user now (f 0) t1).id = s :=
    createRow_id user now (f 0) t1 s h1 hs
  simp only [syncEndpoint, applySyncOps, syncApplyUpdate, h2,
    insertOrReplace, hrid]
  by_cases hany : st.tasks.any (fun x => x.id == s) = true
  · rw [if_pos hany, if_pos hany, List.map_map]
    refine List.map_congr_left (fun x _ => ?_)
    by_cases hx : (x.id == s) = true
    · simp [Function.comp, hx, hrid]
    · have hx' : (x.id == s) = false := by simpa using hx
      simp [Function.comp, hx']
  · have hany' : st.tasks.any (fun x => x.id == s) = false := by
      simpa using hany
    have hall : ∀ x ∈ st.tasks, (x.id == s) = false := by
      intro x hx
      rcases List.any_eq_false.mp hany' x hx with h
      simpa using h
    rw [if_neg hany, if_neg hany, List.map_append]
    rw [cond_map_eq_self st.tasks (fun row => syncUpdateRow t2 row)
      (fun row => row.id == s) hall]
    simp [hrid]

/-- Forget the creation timestamp of a task row. -/
def stripCreatedAt (t : Task) : Task := { t with created_at := 0 }

/-- Replaying the create of the same payload at another time (and with
another fresh-id draw, which the truthy client id ignores) changes only the
creation timestamp of the written row. -/
theorem strip_syncRow_replay (user : String) (n1 n2 : Int) (g1 g2 : String)
    (t1 t2 : SyncTaskPayload) (s : String) (h1 : t1.id = some s)
    (hs : s ≠ "") :
    stripCreatedAt (syncUpdateRow t2 (createRow user n2 g2 t1)) =
      stripCreatedAt (syncUpdateRow t2 (createRow user n1 g1 t1)) := by
  simp [stripCreatedAt, syncUpdateRow, createRow, orElseStr, h1, hs]

/-- Claim C7 (amended): submitting `create` twice with the same truthy client
id overwrites rather than duplicates, and replaying the batch
`[create(id=s), update(id=s)]` reproduces the same end state of the tasks
table except that the affected row carries the creation timestamp of the
replay — every other column, the row count, and all other rows are equal. -/
theorem sync_create_idempotent_up_to_created_at
    (user : String) (n1 n2 : Int) (f1 f2 : Nat → String) (st : Store)
    (t1 t2 : SyncTaskPayload) (s : String)
    (h1 : t1.id = some s) (h2 : t2.id = some s) (hs : s ≠ "") :
    ((syncEndpoint user n2 f2 (fun _ => none)
        (syncEndpoint user n1 f1 (fun _ => none) st
          [SyncOp.create t1, SyncOp.update t2]).1
        [SyncOp.create t1, SyncOp.update t2]).1.tasks.map stripCreatedAt =
      (syncEndpoint user n1 f1 (fun _ => none) st
        [SyncOp.create t1, SyncOp.update t2]).1.tasks.map stripCreatedAt) ∧
    ((syncEndpoint user n2 f2 (fun _ => none)
        (syncEndpoint user n1 f1 (fun _ => none) st
          [SyncOp.create t1, SyncOp.update t2]).1
        [SyncOp.create t1, SyncOp.update t2]).1.tasks.length =
      (syncEndpoint user n1 f1 (fun _ => none) st
        [SyncOp.create t1, SyncOp.update t2]).1.tasks.length) ∧
    (st.tasks.any (fun x => x.id == s) = true →
      (syncEndpoint user n1 f1 (fun _ => none) st
        [SyncOp.create t1, SyncOp.update t2]).1.tasks.length =
        st.tasks.length) := by
  have honce := syncBatch_tasks user n1 f1 st t1 t2 s h1 h2 hs
  have htwice := syncBatch_tasks user n2 f2
    (syncEndpoint user n1 f1 (fun _ => none) st
      [SyncOp.create t1, SyncOp.update t2]).1 t1 t2 s h1 h2 hs
  have hR1id : (syncUpdateRow t2 (createRow user n1 (f1 0) t1)).id = s := by
    rw [syncUpdateRow_id]
    exact createRow_id user n1 (f1 0) t1 s h1 hs
  have hanyOnce : (syncEndpoint user n1 f1 (fun _ => none) st
      [SyncOp.create t1, SyncOp.update t2]).1.tasks.any
        (fun x => x.id == s) = true := by
    rw [honce]
    by_cases hany : st.tasks.any (fun x => x.id == s) = true
    · rw [if_pos hany]
      rcases List.any_eq_true.mp hany with ⟨x, hx, hxs⟩
      refine List.any_eq_true.mpr
        ⟨syncUpdateRow t2 (createRow user n1 (f1 0) t1), ?_,
         by simp [createRow_id user n1 (f1 0) t1 s h1 hs]⟩
      exact List.mem_map.mpr ⟨x, hx, by simp [hxs]⟩
    · rw [if_neg hany]
      refine List.any_eq_true.mpr
        ⟨syncUpdateRow t2 (createRow user n1 (f1 0) t1), ?_,
         by simp [createRow_id user n1 (f1 0) t1 s h1 hs]⟩
      exact List.mem_append_right _ (List.mem_singleton_self _)
  have htwice' : (syncEndpoint user n2 f2 (fun _ => none)
      (syncEndpoint user n1 f1 (fun _ => none) st
        [SyncOp.create t1, SyncOp.update t2]).1
      [SyncOp.create t1, SyncOp.update t2]).1.tasks =
      (syncEndpoint user n1 f1 (fun _ => none) st
        [SyncOp.create t1, SyncOp.update t2]).1.tasks.map
        (fun x => if x.id == s then
          syncUpdateRow t2 (createRow user n2 (f2 0) t1) else x) := by
    rw [htwice, if_pos hanyOnce]
  have hchar : ∀ y ∈ (syncEndpoint user n1 f1 (fun _ => none) st
      [SyncOp.create t1, SyncOp.update t2]).1.tasks, (y.id == s) = true →
      y = syncUpdateRow t2 (createRow user n1 (f1 0) t1) := by
    rw [honce]
    by_cases hany : st.tasks.any (fun x => x.id == s) = true
    · rw [if_pos hany]
      intro y hy hyid
      rcases List.mem_map.mp hy with ⟨x, hx, hxy⟩
      by_cases hxs : (x.id == s) = true
      · rw [← hxy, if_pos hxs]
      · rw [← hxy, if_neg hxs] at hyid
        exact absurd hyid hxs
    · rw [if_neg hany]
      intro y hy hyid
      rcases List.mem_append.mp hy with hyl | hyr
      · have hany' : st.tasks.any (fun x => x.id == s) = false := by
          simpa using hany
        have := List.any_eq_false.mp hany' y hyl
        simp_all
      · simpa using hyr
  refine ⟨?_, ?_, ?_⟩
  · rw [htwice', List.map_map]
    refine List.map_congr_left (fun y hy => ?_)
    by_cases hyid : (y.id == s) = true
    · have hyR := hchar y hy hyid
      simp only [Function.comp, hyid, if_true]
      rw [hyR, strip_syncRow_replay user n1 n2 (f1 0) (f2 0) t1 t2 s h1 hs]
    · have hyid' : (y.id == s) = false := by simpa using hyid
      simp [Function.comp, hyid']
  · rw [htwice']
    exact List.length_map _ _
  · intro hany
    rw [honce, if_pos hany]
    exact List.length_map _ _

/-- The create payload of the C7 example batch (client id `A`). -/
def pA : SyncTaskPayload :=
  { id := some "A", title := some "t0", description := none, priority := none,
    due_at := none, assignee := none, recurring_rule := none,
    completed := false }

/-- The update payload of the C7 example batch (id `A`, title `x`). -/
def pAx : SyncTaskPayload :=
  { id := some "A", title := some "x", description := none, priority := none,
    due_at := none, assignee := none, recurring_rule := none,
    completed := false }

/-- Counterexample to C7 as stated: replaying the example batch at a later
time (now = 1 instead of 0) does not reproduce the identical end state — the
replayed create rewrites `created_at` of task `A` to the replay time. -/
theorem sync_replay_created_at_counterexample :
    (syncEndpoint "u" 1 (fun _ => "F") (fun _ => none)
        (syncEndpoint "u" 0 (fun _ => "F") (fun _ => none) emptyStore
          [SyncOp.create pA, SyncOp.update pAx]).1
        [SyncOp.create pA, SyncOp.update pAx]).1 ≠
      (syncEndpoint "u" 0 (fun _ => "F") (fun _ => none) emptyStore
        [SyncOp.create pA, SyncOp.update pAx]).1 := by
  decide

/-- A pre-existing task with the contested id `A`. -/
def priorA : Task :=
  { id := "A", title := some "old", description := some "od",
    priority := some "low", completed := true, due_at := some 5,
    created_by := some "w", assignee := some "z",
    recurring_rule := some "weekly", created_at := 3 }

/-- A store already holding a task with id `A`. -/
def c7wStore : Store :=
  { tasks := [priorA], task_dependencies := [], reminders := [],
    time_entries := [] }

/-- Witness for the amended C7, on a store already holding id `A`: the
replayed batch agrees with the first application up to `created_at`, keeps
the row count, and the first application itself overwrote instead of
duplicating. -/
theorem sync_create_idempotent_up_to_created_at_witness :
    ((syncEndpoint "u" 1 (fun _ => "G") (fun _ => none)
        (syncEndpoint "u" 0 (fun _ => "F") (fun _ => none) c7wStore
          [SyncOp.create pA, SyncOp.update pAx]).1
        [SyncOp.create pA, SyncOp.update pAx]).1.tasks.map stripCreatedAt =
      (syncEndpoint "u" 0 (fun _ => "F") (fun _ => none) c7wStore
        [SyncOp.create pA, SyncOp.update pAx]).1.tasks.map stripCreatedAt) ∧
    ((syncEndpoint "u" 1 (fun _ => "G") (fun _ => none)
        (syncEndpoint "u" 0 (fun _ => "F") (fun _ => none) c7wStore
          [SyncOp.create pA, SyncOp.update pAx]).1
        [SyncOp.create pA, SyncOp.update pAx]).1.tasks.length =
      (syncEndpoint "u" 0 (fun _ => "F") (fun _ => none) c7wStore
        [SyncOp.create pA, SyncOp.update pAx]).1.tasks.length) ∧
    (c7wStore.tasks.any (fun x => x.id == "A") = true →
      (syncEndpoint "u" 0 (fun _ => "F") (fun _ => none) c7wStore
        [SyncOp.create pA, SyncOp.update pAx]).1.tasks.length =
        c7wStore.tasks.length) :=
  sync_create_idempotent_up_to_created_at "u" 0 1 (fun _ => "F")
    (fun _ => "G") c7wStore pA pAx "A" rfl rfl (by decide)

end SmartTodo
